import Mathlib

/-!
Verification of the encrypted-volume lifecycle manager
(`src/internal/infra/security/luks_linux.c`) of qudata-agent.

The C file drives external tools (`cryptsetup`, `mkfs.ext4`, `mount`,
`umount`) through two process runners, `execute_command` and
`execute_with_stdin`.  We embed the file shallowly: outcomes of the
external world (pipe creation, fork, the number of bytes `write`
reported, `waitpid`, the child's termination status, `mkdir`) are
explicit environment values, and each operation is a pure function of
its arguments and that environment.  Every operation additionally
returns the trace of process invocations it constructed, the final
contents of the caller's key buffer, and whether it set `errno` to
`EINVAL`, so that claims about argument vectors, key zeroing, rollback
and early returns can be stated directly.
-/

namespace Qudata

/-- A key buffer is a sequence of bytes; we use `Nat` for a byte. -/
abbrev Byte := Nat

/-- Outcome of spawning a child and waiting for it, as observed by the
parent in `execute_command` (lines 15-27 of `luks_linux.c`):
`fork` may fail, `waitpid` may fail, the child may terminate abnormally
(signal, so `WIFEXITED` is false), or exit normally with a status code.
Note an `execvp` failure makes the child `_exit(127)`, which is the
`exited 127` case here. -/
inductive ProcResult where
  | forkFail : ProcResult
  | waitFail : ProcResult
  | signaled : ProcResult
  | exited : Nat → ProcResult
deriving DecidableEq

/-- `execute_command` (lines 15-27): returns -1 if `fork` or `waitpid`
fails or the child did not exit normally, else `WEXITSTATUS(status)`. -/
def execute_command : ProcResult → Int
  | ProcResult.forkFail => -1
  | ProcResult.waitFail => -1
  | ProcResult.signaled => -1
  | ProcResult.exited c => (c : Int)

/-- Environment for one `execute_with_stdin` call (lines 29-68):
whether `pipe` succeeded, whether `fork` succeeded, the return value of
the single `write` to the pipe (-1 on error, else a byte count), and the
`waitpid`/termination outcome of the child (the `forkFail` constructor
of `ProcResult` is unused in this position; `forkOk` covers the fork). -/
structure StdinEnv where
  pipeOk : Bool
  forkOk : Bool
  written : Int
  proc : ProcResult
deriving DecidableEq

/-- Result of `execute_with_stdin`: the returned exit value and whether
`waitpid` was invoked on the child (the child exists and was reaped)
before returning. -/
structure StdinRun where
  ret : Int
  reaped : Bool
deriving DecidableEq

/-- `execute_with_stdin` (lines 29-68): fail if `pipe` fails; fail if
`fork` fails (both pipe ends closed); after writing, if the value
returned by `write` differs from the payload length, reap the child with
`waitpid(pid, NULL, 0)` and return -1 regardless of its status (lines
60-63); otherwise return as `execute_command` does from the `waitpid`
outcome (lines 65-67). -/
def execute_with_stdin (e : StdinEnv) (len : Nat) : StdinRun :=
  if e.pipeOk = false then ⟨-1, false⟩
  else if e.forkOk = false then ⟨-1, false⟩
  else if e.written ≠ (len : Int) then ⟨-1, true⟩
  else ⟨execute_command e.proc, true⟩

/-- One observable action of a volume operation: a no-stdin process
invocation (`execute_command`), a stdin-fed process invocation
(`execute_with_stdin`, recording both argv and the payload), or the
`mkdir` call on a path. -/
inductive Event where
  | run : List String → Event
  | runStdin : List String → List Byte → Event
  | mkdirAt : String → Event
deriving DecidableEq

/-- Outcome of the `mkdir(mount_point, 0700)` call at line 110: success,
failure with `EEXIST` (directory already present), or any other failure
(permission, IO).  The C code discards the return value. -/
inductive MkdirResult where
  | ok : MkdirResult
  | eexist : MkdirResult
  | eother : MkdirResult
deriving DecidableEq

/-- Result of a key-consuming operation (`luks_create_volume`,
`luks_open_volume`): returned int, whether `errno` was set to `EINVAL`,
the contents of the caller's key buffer at return (`none` when the
caller passed NULL), and the invocation trace. -/
structure KeyedResult where
  ret : Int
  einval : Bool
  key : Option (List Byte)
  trace : List Event
deriving DecidableEq

/-- Result of a key-free operation (`luks_close_volume`,
`luks_is_open`). -/
structure PlainResult where
  ret : Int
  einval : Bool
  trace : List Event
deriving DecidableEq

/-- `secure_zero` (lines 10-13) on the whole buffer: every byte becomes
zero; the length is unchanged. -/
def secure_zero (k : List Byte) : List Byte :=
  List.replicate k.length 0

/-- The argv built by `luks_create_volume` (lines 76-81). -/
def luksFormatArgv (dev : String) : List String :=
  ["cryptsetup", "luksFormat", "--type", "luks2",
   "--cipher", "aes-xts-plain64", "--key-size", "512",
   "--hash", "sha256", "--key-file", "-", "--batch-mode", dev]

/-- The argv built by `luks_open_volume` for the unlock step
(lines 95-98). -/
def luksOpenArgv (dev mapper : String) : List String :=
  ["cryptsetup", "luksOpen", "--key-file", "-", dev, mapper]

/-- The mapper device path written by `snprintf` at line 105. -/
def mapperPath (mapper : String) : String :=
  "/dev/mapper/" ++ mapper

/-- The argv of the filesystem-build step (line 107). -/
def mkfsArgv (mapper : String) : List String :=
  ["mkfs.ext4", "-F", "-q", mapperPath mapper]

/-- The argv of the mount step (line 112). -/
def mountArgv (mapper mnt : String) : List String :=
  ["mount", "-t", "ext4", mapperPath mapper, mnt]

/-- The argv of the lock step (lines 116 and 133). -/
def luksCloseArgv (mapper : String) : List String :=
  ["cryptsetup", "luksClose", mapper]

/-- The argv of the unmount step (line 130). -/
def umountArgv (mnt : String) : List String :=
  ["umount", "-f", mnt]

/-- The argv of the status query (line 139). -/
def statusArgv (mapper : String) : List String :=
  ["cryptsetup", "status", mapper]

/-- `luks_create_volume` (lines 70-86).  NULL device path, NULL key or
zero key length: set `errno = EINVAL` and return -1 at once, without
touching the key buffer or spawning anything (lines 71-74).  Otherwise
run `cryptsetup luksFormat` with the key over stdin, zero the key buffer
(line 84), and return 0 exactly when the invocation returned 0.  The key
list's length plays the role of `key_len`. -/
def luks_create_volume (e : StdinEnv) (device_path : Option String)
    (key : Option (List Byte)) : KeyedResult :=
  match device_path, key with
  | some dev, some k =>
    if k.length = 0 then ⟨-1, true, some k, []⟩
    else
      let r := execute_with_stdin e k.length
      ⟨if r.ret = 0 then 0 else -1, false, some (secure_zero k),
       [Event.runStdin (luksFormatArgv dev) k]⟩
  | _, kk => ⟨-1, true, kk, []⟩

/-- Environment for one `luks_open_volume` call: the stdin-run
environment of the unlock step and the process/mkdir outcomes of the
later steps. -/
structure OpenEnv where
  unlock : StdinEnv
  mkfs : ProcResult
  mkdirR : MkdirResult
  mount : ProcResult
  rollback : ProcResult
deriving DecidableEq

/-- `luks_open_volume` (lines 88-122).  NULL argument or zero key
length: `EINVAL`, -1, nothing spawned (lines 90-93).  Otherwise:
run `cryptsetup luksOpen` with the key over stdin and zero the key
(lines 100-101); on nonzero result return -1 with no further steps
(line 102).  Then run `mkfs.ext4` discarding its result (line 108),
call `mkdir` discarding its result (line 110), and run `mount`
(line 113); if mount's result is nonzero, run `cryptsetup luksClose`
and return -1 (lines 115-119), else return 0. -/
def luks_open_volume (e : OpenEnv)
    (device_path mapper_name mount_point : Option String)
    (key : Option (List Byte)) : KeyedResult :=
  match device_path, mapper_name, mount_point, key with
  | some dev, some m, some mp, some k =>
    if k.length = 0 then ⟨-1, true, some k, []⟩
    else
      let r := execute_with_stdin e.unlock k.length
      let kz := some (secure_zero k)
      let t0 := [Event.runStdin (luksOpenArgv dev m) k]
      if r.ret ≠ 0 then ⟨-1, false, kz, t0⟩
      else
        let _ := execute_command e.mkfs
        let t1 := t0 ++ [Event.run (mkfsArgv m), Event.mkdirAt mp]
        let mres := execute_command e.mount
        let t2 := t1 ++ [Event.run (mountArgv m mp)]
        if mres ≠ 0 then
          ⟨-1, false, kz, t2 ++ [Event.run (luksCloseArgv m)]⟩
        else ⟨0, false, kz, t2⟩
  | _, _, _, kk => ⟨-1, true, kk, []⟩

/-- `luks_close_volume` (lines 124-135).  NULL argument: `EINVAL`, -1.
Otherwise run `umount -f` discarding its result (line 131), then run
`cryptsetup luksClose`, returning 0 exactly when it returned 0. -/
def luks_close_volume (umountR lockR : ProcResult)
    (mount_point mapper_name : Option String) : PlainResult :=
  match mount_point, mapper_name with
  | some mp, some m =>
    let _ := execute_command umountR
    ⟨if execute_command lockR = 0 then 0 else -1, false,
     [Event.run (umountArgv mp), Event.run (luksCloseArgv m)]⟩
  | _, _ => ⟨-1, true, []⟩

/-- `luks_is_open` (lines 137-141).  NULL mapper name: 0, nothing
spawned.  Otherwise run `cryptsetup status` and return 1 exactly when it
returned 0. -/
def luks_is_open (statusR : ProcResult) (mapper_name : Option String) :
    PlainResult :=
  match mapper_name with
  | some m =>
    ⟨if execute_command statusR = 0 then 1 else 0, false,
     [Event.run (statusArgv m)]⟩
  | none => ⟨0, false, []⟩

/-- The stdin-fed invocations of a trace, as (argv, payload) pairs. -/
def stdinEvents : List Event → List (List String × List Byte)
  | [] => []
  | Event.runStdin a p :: t => (a, p) :: stdinEvents t
  | Event.run _ :: t => stdinEvents t
  | Event.mkdirAt _ :: t => stdinEvents t

/-- Claim C4: for every call to the stdin-streaming runner
(`execute_with_stdin`), if the number of bytes written to the pipe is
less than the payload length, the invocation is reported as failed
(returns -1) regardless of the child's eventual exit status, and the
child is still reaped before returning. -/
theorem C4_partial_write_fails (e : StdinEnv) (len : Nat)
    (hp : e.pipeOk = true) (hf : e.forkOk = true)
    (hw : e.written < (len : Int)) :
    (execute_with_stdin e len).ret = -1 ∧
    (execute_with_stdin e len).reaped = true := by
  have hne : e.written ≠ (len : Int) := by omega
  simp [execute_with_stdin, hp, hf, hne]

/-- Witness for C4: a pipe and fork that succeed, zero of two payload
bytes written, and a child that exits 0 — yet the runner reports -1 and
the child is reaped. -/
theorem C4_witness :
    ((⟨true, true, 0, ProcResult.exited 0⟩ : StdinEnv).written <
      ((2 : Nat) : Int)) ∧
    ((execute_with_stdin ⟨true, true, 0, ProcResult.exited 0⟩ 2).ret = -1 ∧
     (execute_with_stdin ⟨true, true, 0, ProcResult.exited 0⟩ 2).reaped =
       true) :=
  ⟨by decide,
   C4_partial_write_fails ⟨true, true, 0, ProcResult.exited 0⟩ 2 rfl rfl
     (by decide)⟩

/-- Claim C6: for every call to `luks_close_volume` with non-NULL
arguments, the unmount invocation's outcome is ignored and the lock step
is always attempted; close returns success if and only if the lock
invocation exits zero, and reports the lock step's non-zero exit as
failure. -/
theorem C6_close_ignores_umount (u u2 l : ProcResult) (mp m : String) :
    ((luks_close_volume u l (some mp) (some m)).ret = 0 ↔
      l = ProcResult.exited 0) ∧
    luks_close_volume u l (some mp) (some m) =
      luks_close_volume u2 l (some mp) (some m) ∧
    ((luks_close_volume u l (some mp) (some m)).ret = 0 ∨
      (luks_close_volume u l (some mp) (some m)).ret = -1) ∧
    (luks_close_volume u l (some mp) (some m)).trace =
      [Event.run (umountArgv mp), Event.run (luksCloseArgv m)] := by
  refine ⟨?_, rfl, ?_, rfl⟩ <;>
    cases l <;> (simp [luks_close_volume, execute_command]; try omega)

/-- Claim C10: `luks_is_open` returns 1 exactly when the status
invocation exits with status zero; every other outcome (non-zero exit,
tool not found — exit 127, abnormal termination, wait failure) yields 0;
a NULL mapper name yields 0 without invoking any command. -/
theorem C10_is_open_status (r : ProcResult) (m : String) :
    ((luks_is_open r (some m)).ret = 1 ↔ r = ProcResult.exited 0) ∧
    ((luks_is_open r (some m)).ret = 1 ∨
      (luks_is_open r (some m)).ret = 0) ∧
    (luks_is_open r (some m)).trace = [Event.run (statusArgv m)] ∧
    luks_is_open r none = ⟨0, false, []⟩ := by
  refine ⟨?_, ?_, rfl, rfl⟩ <;>
    cases r <;> (simp [luks_is_open, execute_command]; try omega)

/-- Claim C3: for every call to `luks_open_volume` in which the unlock
step succeeds but the mount invocation does not exit zero, open invokes
`cryptsetup luksClose` on the mapper name before returning, and returns
failure; the full trace is unlock, mkfs, mkdir, mount, then the
rollback lock. -/
theorem C3_mount_failure_rollback (e : OpenEnv) (dev m mp : String)
    (k : List Byte) (hk : k.length ≠ 0)
    (hu : (execute_with_stdin e.unlock k.length).ret = 0)
    (hm : execute_command e.mount ≠ 0) :
    (luks_open_volume e (some dev) (some m) (some mp) (some k)).ret = -1 ∧
    (luks_open_volume e (some dev) (some m) (some mp) (some k)).trace =
      [Event.runStdin (luksOpenArgv dev m) k, Event.run (mkfsArgv m),
       Event.mkdirAt mp, Event.run (mountArgv m mp),
       Event.run (luksCloseArgv m)] := by
  simp [luks_open_volume, hk, hu, hm]

/-- Witness for C3: a successful unlock followed by a mount exiting 32
makes open return -1 with the rollback lock invocation last in the
trace. -/
theorem C3_witness :
    (([9] : List Byte).length ≠ 0 ∧
     (execute_with_stdin
        (OpenEnv.unlock ⟨⟨true, true, 1, ProcResult.exited 0⟩,
          ProcResult.exited 0, MkdirResult.ok, ProcResult.exited 32,
          ProcResult.exited 0⟩) ([9] : List Byte).length).ret = 0 ∧
     execute_command
        (OpenEnv.mount ⟨⟨true, true, 1, ProcResult.exited 0⟩,
          ProcResult.exited 0, MkdirResult.ok, ProcResult.exited 32,
          ProcResult.exited 0⟩) ≠ 0) ∧
    ((luks_open_volume ⟨⟨true, true, 1, ProcResult.exited 0⟩,
        ProcResult.exited 0, MkdirResult.ok, ProcResult.exited 32,
        ProcResult.exited 0⟩ (some "/dev/sda1") (some "m0") (some "/mnt/m0")
        (some [9])).ret = -1 ∧
     (luks_open_volume ⟨⟨true, true, 1, ProcResult.exited 0⟩,
        ProcResult.exited 0, MkdirResult.ok, ProcResult.exited 32,
        ProcResult.exited 0⟩ (some "/dev/sda1") (some "m0") (some "/mnt/m0")
        (some [9])).trace =
      [Event.runStdin (luksOpenArgv "/dev/sda1" "m0") [9],
       Event.run (mkfsArgv "m0"), Event.mkdirAt "/mnt/m0",
       Event.run (mountArgv "m0" "/mnt/m0"),
       Event.run (luksCloseArgv "m0")]) :=
  ⟨⟨by decide, by decide, by decide⟩,
   C3_mount_failure_rollback ⟨⟨true, true, 1, ProcResult.exited 0⟩,
      ProcResult.exited 0, MkdirResult.ok, ProcResult.exited 32,
      ProcResult.exited 0⟩ "/dev/sda1" "m0" "/mnt/m0" [9]
     (by decide) (by decide) (by decide)⟩

/-- Claim C5: for every call to `luks_open_volume` in which the unlock
invocation does not exit zero, open returns failure immediately and
attempts no further step: the trace contains only the unlock
invocation — no mkfs, no mkdir, no mount, no rollback lock. -/
theorem C5_unlock_failure_aborts (e : OpenEnv) (dev m mp : String)
    (k : List Byte) (hk : k.length ≠ 0)
    (hu : (execute_with_stdin e.unlock k.length).ret ≠ 0) :
    (luks_open_volume e (some dev) (some m) (some mp) (some k)).ret = -1 ∧
    (luks_open_volume e (some dev) (some m) (some mp) (some k)).trace =
      [Event.runStdin (luksOpenArgv dev m) k] := by
  simp [luks_open_volume, hk, hu]

/-- Witness for C5: an unlock exiting 2 (e.g. wrong key) makes open
return -1 with the unlock invocation as the only trace entry. -/
theorem C5_witness :
    (([9] : List Byte).length ≠ 0 ∧
     (execute_with_stdin
        (OpenEnv.unlock ⟨⟨true, true, 1, ProcResult.exited 2⟩,
          ProcResult.exited 0, MkdirResult.ok, ProcResult.exited 0,
          ProcResult.exited 0⟩) ([9] : List Byte).length).ret ≠ 0) ∧
    ((luks_open_volume ⟨⟨true, true, 1, ProcResult.exited 2⟩,
        ProcResult.exited 0, MkdirResult.ok, ProcResult.exited 0,
        ProcResult.exited 0⟩ (some "/dev/sda1") (some "m0") (some "/mnt/m0")
        (some [9])).ret = -1 ∧
     (luks_open_volume ⟨⟨true, true, 1, ProcResult.exited 2⟩,
        ProcResult.exited 0, MkdirResult.ok, ProcResult.exited 0,
        ProcResult.exited 0⟩ (some "/dev/sda1") (some "m0") (some "/mnt/m0")
        (some [9])).trace =
      [Event.runStdin (luksOpenArgv "/dev/sda1" "m0") [9]]) :=
  ⟨⟨by decide, by decide⟩,
   C5_unlock_failure_aborts ⟨⟨true, true, 1, ProcResult.exited 2⟩,
      ProcResult.exited 0, MkdirResult.ok, ProcResult.exited 0,
      ProcResult.exited 0⟩ "/dev/sda1" "m0" "/mnt/m0" [9]
     (by decide) (by decide)⟩

/-- Counterexample to claim C7 as stated: the claim says a mkdir failure
distinct from "already exists" (e.g. a permission error) is fatal and
makes open return failure without attempting the mount.  In the code the
return value of `mkdir` (line 110) is discarded: with a permission-style
mkdir failure and every tool succeeding, open still attempts the mount
and returns success. -/
theorem C7_counterexample :
    (luks_open_volume ⟨⟨true, true, 1, ProcResult.exited 0⟩,
        ProcResult.exited 0, MkdirResult.eother, ProcResult.exited 0,
        ProcResult.exited 0⟩ (some "/dev/sda1") (some "vol")
        (some "/mnt/vol") (some [7])).ret = 0 ∧
    Event.run (mountArgv "vol" "/mnt/vol") ∈
      (luks_open_volume ⟨⟨true, true, 1, ProcResult.exited 0⟩,
        ProcResult.exited 0, MkdirResult.eother, ProcResult.exited 0,
        ProcResult.exited 0⟩ (some "/dev/sda1") (some "vol")
        (some "/mnt/vol") (some [7])).trace := by
  decide

/-- Claim C7 amended: the mount-point directory creation is attempted
whenever the unlock step succeeds, but its outcome is entirely ignored —
non-fatal both when the directory already exists and on permission or IO
errors — and open proceeds to the mount step with an identical result
whatever `mkdir` returned. -/
theorem C7_mkdir_result_ignored (u : StdinEnv) (f mo c : ProcResult)
    (r r2 : MkdirResult) (dev m mp : Option String)
    (k : Option (List Byte)) :
    luks_open_volume ⟨u, f, r, mo, c⟩ dev m mp k =
      luks_open_volume ⟨u, f, r2, mo, c⟩ dev m mp k := rfl

/-- Counterexample to claim C1 as stated: the claim says the key buffer
reads as all-zero after create/open on every exit path, including the
early return on invalid arguments.  With a NULL device path and a
one-byte key holding 42, `luks_create_volume` takes the early `EINVAL`
return (lines 71-74) without calling `secure_zero`, so the buffer still
reads 42, not zero. -/
theorem C1_counterexample :
    (luks_create_volume ⟨true, true, 1, ProcResult.exited 0⟩ none
        (some [42])).ret = -1 ∧
    (luks_create_volume ⟨true, true, 1, ProcResult.exited 0⟩ none
        (some [42])).key = some [42] ∧
    some ([42] : List Byte) ≠ some (secure_zero [42]) := by
  decide

/-- Claim C1 amended: for every call to create or open whose arguments
pass validation (all pointers non-NULL, key length non-zero), the key
buffer reads as all-zero immediately after the call returns, on every
such exit path — success or external-tool failure; on the early return
for invalid arguments the buffer is left unmodified instead. -/
theorem C1_key_zeroed_past_validation (e : StdinEnv) (o : OpenEnv)
    (dev m mp : String) (k k2 : List Byte)
    (hk : k.length ≠ 0) (hk2 : k2.length ≠ 0) :
    (luks_create_volume e (some dev) (some k)).key =
      some (List.replicate k.length 0) ∧
    (luks_open_volume o (some dev) (some m) (some mp) (some k2)).key =
      some (List.replicate k2.length 0) := by
  constructor
  · simp [luks_create_volume, hk, secure_zero]
  · simp [luks_open_volume, hk2, secure_zero]
    split
    · split <;> rfl
    · rfl

/-- Witness for C1 amended: a create whose tool exits 1 and an open
whose mount fails both return with the two-byte key zeroed. -/
theorem C1_witness :
    (([5, 6] : List Byte).length ≠ 0 ∧ ([7] : List Byte).length ≠ 0) ∧
    ((luks_create_volume ⟨true, true, 2, ProcResult.exited 1⟩
        (some "/dev/sda1") (some [5, 6])).key =
      some (List.replicate ([5, 6] : List Byte).length 0) ∧
     (luks_open_volume ⟨⟨true, true, 1, ProcResult.exited 0⟩,
        ProcResult.exited 0, MkdirResult.ok, ProcResult.exited 32,
        ProcResult.exited 0⟩ (some "/dev/sda1") (some "m0")
        (some "/mnt/m0") (some [7])).key =
      some (List.replicate ([7] : List Byte).length 0)) :=
  ⟨⟨by decide, by decide⟩,
   C1_key_zeroed_past_validation ⟨true, true, 2, ProcResult.exited 1⟩
     ⟨⟨true, true, 1, ProcResult.exited 0⟩, ProcResult.exited 0,
       MkdirResult.ok, ProcResult.exited 32, ProcResult.exited 0⟩
     "/dev/sda1" "m0" "/mnt/m0" [5, 6] [7] (by decide) (by decide)⟩

/-- Claim C2: for every external-tool invocation constructed by create
and open, the key bytes never appear in the argument vector: the argv of
the single stdin-fed invocation is a function of the device path and
mapper name only — identical for any two key values and any two
environments — the secret travels only as the stdin payload, and the
`-` key-file marker is present in the arguments. -/
theorem C2_secret_only_on_stdin (e e2 : StdinEnv) (o o2 : OpenEnv)
    (dev m mp : String) (k k2 : List Byte)
    (hk : k.length ≠ 0) (hk2 : k2.length ≠ 0) :
    stdinEvents (luks_create_volume e (some dev) (some k)).trace =
      [(luksFormatArgv dev, k)] ∧
    stdinEvents (luks_create_volume e2 (some dev) (some k2)).trace =
      [(luksFormatArgv dev, k2)] ∧
    stdinEvents
        (luks_open_volume o (some dev) (some m) (some mp) (some k)).trace =
      [(luksOpenArgv dev m, k)] ∧
    stdinEvents
        (luks_open_volume o2 (some dev) (some m) (some mp) (some k2)).trace =
      [(luksOpenArgv dev m, k2)] ∧
    "-" ∈ luksFormatArgv dev ∧ "-" ∈ luksOpenArgv dev m := by
  refine ⟨?_, ?_, ?_, ?_, by simp [luksFormatArgv], by simp [luksOpenArgv]⟩
  · simp [luks_create_volume, hk, stdinEvents]
  · simp [luks_create_volume, hk2, stdinEvents]
  · simp only [luks_open_volume, hk2, hk, if_false]
    split
    · simp [stdinEvents]
    · split <;> simp [stdinEvents]
  · simp only [luks_open_volume, hk2, if_false]
    split
    · simp [stdinEvents]
    · split <;> simp [stdinEvents]

/-- Witness for C2: two distinct keys produce stdin invocations whose
argv parts are the same constant lists containing the `-` marker. -/
theorem C2_witness :
    (([1, 2] : List Byte).length ≠ 0 ∧ ([3] : List Byte).length ≠ 0) ∧
    (stdinEvents (luks_create_volume ⟨true, true, 2, ProcResult.exited 0⟩
        (some "/dev/sda1") (some [1, 2])).trace =
      [(luksFormatArgv "/dev/sda1", [1, 2])] ∧
     stdinEvents (luks_create_volume ⟨true, true, 1, ProcResult.exited 0⟩
        (some "/dev/sda1") (some [3])).trace =
      [(luksFormatArgv "/dev/sda1", [3])] ∧
     stdinEvents (luks_open_volume ⟨⟨true, true, 2, ProcResult.exited 0⟩,
        ProcResult.exited 0, MkdirResult.ok, ProcResult.exited 0,
        ProcResult.exited 0⟩ (some "/dev/sda1") (some "m0")
        (some "/mnt/m0") (some [1, 2])).trace =
      [(luksOpenArgv "/dev/sda1" "m0", [1, 2])] ∧
     stdinEvents (luks_open_volume ⟨⟨true, true, 1, ProcResult.exited 0⟩,
        ProcResult.exited 0, MkdirResult.ok, ProcResult.exited 0,
        ProcResult.exited 0⟩ (some "/dev/sda1") (some "m0")
        (some "/mnt/m0") (some [3])).trace =
      [(luksOpenArgv "/dev/sda1" "m0", [3])] ∧
     "-" ∈ luksFormatArgv "/dev/sda1" ∧
     "-" ∈ luksOpenArgv "/dev/sda1" "m0") :=
  ⟨⟨by decide, by decide⟩,
   C2_secret_only_on_stdin ⟨true, true, 2, ProcResult.exited 0⟩
     ⟨true, true, 1, ProcResult.exited 0⟩
     ⟨⟨true, true, 2, ProcResult.exited 0⟩, ProcResult.exited 0,
       MkdirResult.ok, ProcResult.exited 0, ProcResult.exited 0⟩
     ⟨⟨true, true, 1, ProcResult.exited 0⟩, ProcResult.exited 0,
       MkdirResult.ok, ProcResult.exited 0, ProcResult.exited 0⟩
     "/dev/sda1" "m0" "/mnt/m0" [1, 2] [3] (by decide) (by decide)⟩

/-- Counterexample to claim C8 as stated: the claim says every required
parameter is validated to be present and non-empty, with an `EINVAL`
failure and no external invocation on a missing or empty parameter.  The
code only checks the pointers against NULL and `key_len` against 0
(lines 71, 90): with an empty device-path string and a one-byte key,
`luks_create_volume` does not set `EINVAL`, spawns the format tool, and
can even return success. -/
theorem C8_counterexample :
    (luks_create_volume ⟨true, true, 1, ProcResult.exited 0⟩ (some "")
        (some [7])).einval = false ∧
    (luks_create_volume ⟨true, true, 1, ProcResult.exited 0⟩ (some "")
        (some [7])).trace = [Event.runStdin (luksFormatArgv "") [7]] ∧
    (luks_create_volume ⟨true, true, 1, ProcResult.exited 0⟩ (some "")
        (some [7])).ret = 0 := by
  refine ⟨rfl, rfl, rfl⟩

/-- Claim C8 amended: create and open validate that every required
pointer parameter is present (non-NULL) and that the key length is
non-zero, before any external command is spawned; on a NULL parameter or
zero-length key they return -1 with `errno` set to `EINVAL`, the key
buffer untouched, and an empty invocation trace.  Emptiness of the
string parameters is not checked. -/
theorem C8_null_or_zero_key_rejected (e : StdinEnv) (o : OpenEnv)
    (dp mn mp : Option String) (k : Option (List Byte)) :
    (dp = none ∨ k = none ∨ k = some [] →
      luks_create_volume e dp k = ⟨-1, true, k, []⟩) ∧
    (dp = none ∨ mn = none ∨ mp = none ∨ k = none ∨ k = some [] →
      luks_open_volume o dp mn mp k = ⟨-1, true, k, []⟩) := by
  constructor
  · intro hc
    rcases hc with h | h | h <;> subst h
    · cases k <;> rfl
    · cases dp <;> rfl
    · cases dp <;> rfl
  · intro ho
    rcases ho with h | h | h | h | h <;> subst h
    · cases mn <;> cases mp <;> cases k <;> rfl
    · cases dp <;> cases mp <;> cases k <;> rfl
    · cases dp <;> cases mn <;> cases k <;> rfl
    · cases dp <;> cases mn <;> cases mp <;> rfl
    · cases dp <;> cases mn <;> cases mp <;> rfl

/-- Witness for C8 amended: with a NULL device path, create returns -1
with `EINVAL`, an empty trace and the key buffer as it was; and with a
NULL mapper name alone — device path, mount point and key all valid —
open does the same. -/
theorem C8_witness :
    ((none : Option String) = none ∨ (some [1] : Option (List Byte)) = none ∨
       (some [1] : Option (List Byte)) = some []) ∧
    luks_create_volume ⟨true, true, 1, ProcResult.exited 0⟩ none
        (some [1]) = ⟨-1, true, some [1], []⟩ ∧
    ((some "/dev/sda1" : Option String) = none ∨
       (none : Option String) = none ∨
       (some "/mnt/m0" : Option String) = none ∨
       (some [1] : Option (List Byte)) = none ∨
       (some [1] : Option (List Byte)) = some []) ∧
    luks_open_volume ⟨⟨true, true, 1, ProcResult.exited 0⟩,
        ProcResult.exited 0, MkdirResult.ok, ProcResult.exited 0,
        ProcResult.exited 0⟩ (some "/dev/sda1") none (some "/mnt/m0")
        (some [1]) = ⟨-1, true, some [1], []⟩ :=
  ⟨Or.inl rfl,
   (C8_null_or_zero_key_rejected ⟨true, true, 1, ProcResult.exited 0⟩
     ⟨⟨true, true, 1, ProcResult.exited 0⟩, ProcResult.exited 0,
       MkdirResult.ok, ProcResult.exited 0, ProcResult.exited 0⟩
     none (some "m0") (some "/mnt/m0") (some [1])).1 (Or.inl rfl),
   Or.inr (Or.inl rfl),
   (C8_null_or_zero_key_rejected ⟨true, true, 1, ProcResult.exited 0⟩
     ⟨⟨true, true, 1, ProcResult.exited 0⟩, ProcResult.exited 0,
       MkdirResult.ok, ProcResult.exited 0, ProcResult.exited 0⟩
     (some "/dev/sda1") none (some "/mnt/m0") (some [1])).2
     (Or.inr (Or.inl rfl))⟩

/-- Claim C9: the exit status of the mkfs invocation does not affect
open's result or its subsequent steps — open is the same function for
any two mkfs outcomes, and whenever the unlock step succeeds it
proceeds to the directory-creation and mount steps. -/
theorem C9_mkfs_result_ignored (u : StdinEnv) (f f2 mo c : ProcResult)
    (r : MkdirResult) (dev mn mp : Option String) (k : Option (List Byte))
    (d m2 p2 : String) (kk : List Byte) (hk : kk.length ≠ 0)
    (hu : (execute_with_stdin u kk.length).ret = 0) :
    (luks_open_volume ⟨u, f, r, mo, c⟩ dev mn mp k =
      luks_open_volume ⟨u, f2, r, mo, c⟩ dev mn mp k) ∧
    Event.mkdirAt p2 ∈
      (luks_open_volume ⟨u, f, r, mo, c⟩ (some d) (some m2) (some p2)
        (some kk)).trace ∧
    Event.run (mountArgv m2 p2) ∈
      (luks_open_volume ⟨u, f, r, mo, c⟩ (some d) (some m2) (some p2)
        (some kk)).trace := by
  refine ⟨rfl, ?_, ?_⟩ <;>
    · simp [luks_open_volume, hk, hu]
      split <;> simp

/-- Witness for C9: with a successful unlock, open with an mkfs exiting
1 equals open with an mkfs exiting 0, and the trace holds the mkdir and
mount steps. -/
theorem C9_witness :
    (([4] : List Byte).length ≠ 0 ∧
     (execute_with_stdin ⟨true, true, 1, ProcResult.exited 0⟩
        ([4] : List Byte).length).ret = 0) ∧
    ((luks_open_volume ⟨⟨true, true, 1, ProcResult.exited 0⟩,
        ProcResult.exited 1, MkdirResult.ok, ProcResult.exited 0,
        ProcResult.exited 0⟩ (some "/dev/sda1") (some "m0")
        (some "/mnt/m0") (some [4]) =
      luks_open_volume ⟨⟨true, true, 1, ProcResult.exited 0⟩,
        ProcResult.exited 0, MkdirResult.ok, ProcResult.exited 0,
        ProcResult.exited 0⟩ (some "/dev/sda1") (some "m0")
        (some "/mnt/m0") (some [4])) ∧
     Event.mkdirAt "/mnt/m0" ∈
       (luks_open_volume ⟨⟨true, true, 1, ProcResult.exited 0⟩,
         ProcResult.exited 1, MkdirResult.ok, ProcResult.exited 0,
         ProcResult.exited 0⟩ (some "/dev/sda1") (some "m0")
         (some "/mnt/m0") (some [4])).trace ∧
     Event.run (mountArgv "m0" "/mnt/m0") ∈
       (luks_open_volume ⟨⟨true, true, 1, ProcResult.exited 0⟩,
         ProcResult.exited 1, MkdirResult.ok, ProcResult.exited 0,
         ProcResult.exited 0⟩ (some "/dev/sda1") (some "m0")
         (some "/mnt/m0") (some [4])).trace) :=
  ⟨⟨by decide, by decide⟩,
   C9_mkfs_result_ignored ⟨true, true, 1, ProcResult.exited 0⟩
     (ProcResult.exited 1) (ProcResult.exited 0) (ProcResult.exited 0)
     (ProcResult.exited 0) MkdirResult.ok
     (some "/dev/sda1") (some "m0") (some "/mnt/m0") (some [4])
     "/dev/sda1" "m0" "/mnt/m0" [4] (by decide) (by decide)⟩

end Qudata
